import Mathlib

/-!
Verification of the label-matching and count-aggregation pipeline of
`count_labels.py` (the CSV utility of this repository).

Modelling conventions, fixed once for the whole file:

* A Python string is a list of Unicode code points (`PyStr`).  The case
  operations `str.lower` / `str.upper` are modelled on the ASCII letter
  range, which covers every name the tool processes.
* A cell of a loaded table (`PyVal`) is a string, a number, or the missing
  value NaN.  Numeric cells are modelled as integers: the pipeline only
  ever converts them with `int(...)`, and the integer-valued floats that
  pandas produces for a numeric column convert exactly.  `int(...)` applied
  to NaN or to a non-numeric cell raises, which the model renders as
  `Option.none`.
* A raised Python exception anywhere in the pipeline is `Option.none`;
  a completed run is `Option.some` of its result.
* The file system, where one is needed, is a function from paths to the
  `name` column of the table stored at that path.
-/

/-- A Python string: its list of code points. -/
abbrev PyStr := List Nat

/-- The code points of a Lean string literal, used to write down concrete
Python strings. -/
def codes (s : String) : PyStr := s.data.map Char.toNat

/-- `str.lower` on a single code point (ASCII letters). -/
def lowerCode (n : Nat) : Nat := if 65 ≤ n ∧ n ≤ 90 then n + 32 else n

/-- `str.upper` on a single code point (ASCII letters). -/
def upperCode (n : Nat) : Nat := if 97 ≤ n ∧ n ≤ 122 then n - 32 else n

/-- Python `s.lower()`. -/
def pyLower (s : PyStr) : PyStr := s.map lowerCode

/-- Python `s.upper()`. -/
def pyUpper (s : PyStr) : PyStr := s.map upperCode

/-- A cell of a loaded pandas table: a string, a numeric value, or NaN
(the missing-value marker `pd.read_csv` puts in an empty cell). -/
inductive PyVal where
  | str : PyStr → PyVal
  | int : Int → PyVal
  | nan : PyVal
deriving DecidableEq

/-- Python `str(v)`: a string prints as itself, a number in decimal,
NaN as the three letters of the word nan. -/
def py_str : PyVal → PyStr
  | PyVal.str v => v
  | PyVal.int v => codes (toString v)
  | PyVal.nan => codes ("nan")

/-- Python `int(v)` on a cell: the identity on a numeric cell; on NaN or a
string cell it raises (`none`).  (CPython does parse a purely numeric
string, but the pipeline only applies `int` to the `count` column after
`fillna`, where pandas numeric inference has already produced numbers.) -/
def py_int : PyVal → Option Int
  | PyVal.int v => some v
  | _ => none

/-- One row of the region-counts table: the eleven hierarchy columns
`level_0` .. `level_10`, the free-text `region name` column, and `count`. -/
structure RegionCountRow where
  level_0 : PyVal
  level_1 : PyVal
  level_2 : PyVal
  level_3 : PyVal
  level_4 : PyVal
  level_5 : PyVal
  level_6 : PyVal
  level_7 : PyVal
  level_8 : PyVal
  level_9 : PyVal
  level_10 : PyVal
  region_name : PyVal
  count : PyVal
deriving DecidableEq

/-- The eleven hierarchy fields of a row, in column order. -/
def level_fields (row : RegionCountRow) : List PyVal :=
  [row.level_0, row.level_1, row.level_2, row.level_3, row.level_4,
   row.level_5, row.level_6, row.level_7, row.level_8, row.level_9,
   row.level_10]

/-- The list `row_labels` built inside `check_columns`
(count_labels.py lines 50-55): `str(row[level_i]).lower()` for i = 0..10. -/
def row_labels (row : RegionCountRow) : List PyStr :=
  (level_fields row).map (fun v => pyLower (py_str v))

/-- `check_columns(keyword, row)` (count_labels.py lines 45-58): lowercase
the keyword and test list membership — `if keyword in row_labels` — against
the eleven lowercased, stringified level columns. -/
def check_columns (keyword : PyStr) (row : RegionCountRow) : Bool :=
  decide (pyLower keyword ∈ row_labels row)

/-- A row whose cells are all NaN, a convenient base for concrete rows. -/
def blankRow : RegionCountRow :=
  { level_0 := PyVal.nan, level_1 := PyVal.nan, level_2 := PyVal.nan,
    level_3 := PyVal.nan, level_4 := PyVal.nan, level_5 := PyVal.nan,
    level_6 := PyVal.nan, level_7 := PyVal.nan, level_8 := PyVal.nan,
    level_9 := PyVal.nan, level_10 := PyVal.nan,
    region_name := PyVal.nan, count := PyVal.nan }

/-- `v.fillna(0)` on a single cell: NaN becomes the number 0, every other
value is kept (count_labels.py line 79). -/
def fillnaVal : PyVal → PyVal
  | PyVal.nan => PyVal.int 0
  | v => v

/-- `region_counts.fillna(0)` on one row: every cell, the `count` and
`region name` columns included, has its NaN replaced by 0. -/
def fillnaRow (r : RegionCountRow) : RegionCountRow :=
  { level_0 := fillnaVal r.level_0, level_1 := fillnaVal r.level_1,
    level_2 := fillnaVal r.level_2, level_3 := fillnaVal r.level_3,
    level_4 := fillnaVal r.level_4, level_5 := fillnaVal r.level_5,
    level_6 := fillnaVal r.level_6, level_7 := fillnaVal r.level_7,
    level_8 := fillnaVal r.level_8, level_9 := fillnaVal r.level_9,
    level_10 := fillnaVal r.level_10,
    region_name := fillnaVal r.region_name, count := fillnaVal r.count }

/-- `x.lower()` on a cell taken from a name or hierarchy column: defined on
a string, raises `AttributeError` (`none`) on a number or on NaN. -/
def lowerName : PyVal → Option PyStr
  | PyVal.str s => some (pyLower s)
  | _ => none

/-- The comprehension `[x.lower() for x in summary_structures['name']]`
(count_labels.py lines 16 and 92): lowercases every entry of the `name`
column, raising (`none`) on a non-string entry. -/
def lower_names : List PyVal → Option (List PyStr)
  | [] => some []
  | v :: vs =>
    match lowerName v, lower_names vs with
    | some s, some ss => some (s :: ss)
    | _, _ => none

/-- `load_summary_structures` (count_labels.py lines 10-17).  `fs` maps a
path to the `name` column of the table stored there.  The body reads the
module-level global `summary_structures_filepath`, NOT the `filepath`
parameter, which is unused; the result is the loaded column together with
the set of its lowercased names (modelled as the list of them). -/
def load_summary_structures (fs : String → List PyVal)
    (summary_structures_filepath : String) (filepath : String) :
    Option (List PyVal × List PyStr) :=
  let summary_structures := fs summary_structures_filepath
  (lower_names summary_structures).map (fun ls => (summary_structures, ls))

/-- The cells `load_region_counts` pools into its `levels` set
(count_labels.py lines 27-39): columns `level_1` .. `level_10` and
`region name` — `level_0` and `count` are not touched. -/
def pooled_level_cells (r : RegionCountRow) : List PyVal :=
  [r.level_1, r.level_2, r.level_3, r.level_4, r.level_5, r.level_6,
   r.level_7, r.level_8, r.level_9, r.level_10, r.region_name]

/-- The `levels` computation of `load_region_counts` (count_labels.py
lines 27-42): pool the cells of `level_1`..`level_10` and `region name`,
drop NaN (`if x==x` — NaN is the one cell unequal to itself), and lowercase
what is left; a numeric cell survives the NaN filter and then raises in
`x.lower()` (`none`).  The caller in `__main__` discards the result, but a
raise here still aborts the run. -/
def load_region_levels (rows : List RegionCountRow) : Option (List PyStr) :=
  lower_names ((rows.flatMap pooled_level_cells).filter
    (fun v => decide (v ≠ PyVal.nan)))

/-- The accumulated value `structure_count[label]` (count_labels.py lines
82-88): over the rows in order, add `int(row['count'])` exactly when
`check_columns(label, row)` holds; `int` on a non-numeric count raises
(`none`). -/
def structure_count (label : PyStr) : List RegionCountRow → Option Int
  | [] => some 0
  | r :: rs =>
    if check_columns label r then
      match py_int r.count, structure_count label rs with
      | some c, some acc => some (c + acc)
      | _, _ => none
    else structure_count label rs

/-- `label in structure_count.keys()` for a label of the `structures` set
(count_labels.py line 93): the `defaultdict` holds a key exactly when some
row matched it during the aggregation loop. -/
def in_count_dict (rows : List RegionCountRow) (label : PyStr) : Bool :=
  rows.any (fun r => check_columns label r)

/-- One entry of the `summary_counts` comprehension (count_labels.py line
93): `structure_count[name] if name in structure_count.keys() else 0`. -/
def dict_lookup (rows : List RegionCountRow) (name : PyStr) : Option Int :=
  if in_count_dict rows name then structure_count name rows else some 0

/-- The full `summary_counts` list (count_labels.py line 93), one entry per
summary name in order. -/
def counts_for (rows : List RegionCountRow) : List PyStr → Option (List Int)
  | [] => some []
  | n :: ns =>
    match dict_lookup rows n, counts_for rows ns with
    | some c, some cs => some (c :: cs)
    | _, _ => none

/-- The pipeline of `__main__` from line 76 on, applied to the two loaded
tables: `summary_names` is the `name` column of the summary table,
`region_rows` the region-counts table.  The steps, in source order: lower
the summary names (line 16), build the `levels` set of `load_region_counts`
(lines 27-42, result unused but a raise aborts), `fillna(0)` (line 79),
aggregate and look each lowered name up in the dict (lines 82-93), and
attach the counts as a new column of the summary table (line 94), modelled
as the list pairing each original name cell with its count. -/
def run_pipeline (summary_names : List PyVal)
    (region_rows : List RegionCountRow) : Option (List (PyVal × Int)) := do
  let names ← lower_names summary_names
  let _ ← load_region_levels region_rows
  let rows := region_rows.map fillnaRow
  let counts ← counts_for rows names
  pure (summary_names.zip counts)

/-- The outcome of the argument check at the top of `__main__`
(count_labels.py lines 61-70): with fewer than three `sys.argv` entries the
script prints a usage message and calls `sys.exit()` — which raises
`SystemExit(None)`, i.e. process exit status 0; otherwise it proceeds to
run with the two input paths and the output path (the third argument when
given, else `summary_structures_counts.csv` next to the region-counts
file). -/
inductive MainStart where
  | usage : Nat → MainStart
  | run : String → String → String → MainStart
deriving DecidableEq

/-- `os.path.dirname`: everything before the last slash, empty when the
path has no slash. -/
def dirname (p : String) : String :=
  String.mk (((p.data.reverse.dropWhile (fun c => c ≠ '/')).drop 1).reverse)

/-- `__main__` lines 61-70: dispatch on `len(sys.argv)`. -/
def dispatch (argv : List String) : MainStart :=
  if argv.length < 3 then MainStart.usage 0
  else
    MainStart.run (argv.getD 1 ("")) (argv.getD 2 (""))
      (if 4 ≤ argv.length then argv.getD 3 ("")
       else dirname (argv.getD 2 ("")) ++ ("/summary_structures_counts.csv"))

/-- `row` with hierarchy field number `i` replaced by `v`: the row update
used to state properties quantified over "any hierarchy field". -/
def setLevel (r : RegionCountRow) : Fin 11 → PyVal → RegionCountRow
  | ⟨0, _⟩, v => { r with level_0 := v }
  | ⟨1, _⟩, v => { r with level_1 := v }
  | ⟨2, _⟩, v => { r with level_2 := v }
  | ⟨3, _⟩, v => { r with level_3 := v }
  | ⟨4, _⟩, v => { r with level_4 := v }
  | ⟨5, _⟩, v => { r with level_5 := v }
  | ⟨6, _⟩, v => { r with level_6 := v }
  | ⟨7, _⟩, v => { r with level_7 := v }
  | ⟨8, _⟩, v => { r with level_8 := v }
  | ⟨9, _⟩, v => { r with level_9 := v }
  | ⟨10, _⟩, v => { r with level_10 := v }

/-- The value a cell contributes to an aggregated sum once the blanket
`fillna(0)` has run: a numeric cell contributes itself, a missing cell 0. -/
def coerced_count : PyVal → Int
  | PyVal.int n => n
  | _ => 0

/-- First region-counts row of the end-to-end scenario:
`{level_1: "Thalamus", count: 10}`, every other cell blank. -/
def thalamusRow : RegionCountRow :=
  { blankRow with
    level_1 := PyVal.str (codes ("Thalamus"))
    count := PyVal.int 10 }

/-- Second region-counts row of the end-to-end scenario:
`{level_2: "cortex", level_5: "Thalamus", count: 4}`. -/
def cortexRow : RegionCountRow :=
  { blankRow with
    level_2 := PyVal.str (codes ("cortex"))
    level_5 := PyVal.str (codes ("Thalamus"))
    count := PyVal.int 4 }

/-- A row whose only relevant hierarchy entry is the two-word value
`cerebral cortex`. -/
def cerebralRow : RegionCountRow :=
  { blankRow with level_3 := PyVal.str (codes ("cerebral cortex")) }

/-- A row whose `level_0` cell is the number 5 and whose other hierarchy
cells hold the string `x`: a non-string, non-missing level value. -/
def rowFive : RegionCountRow :=
  { level_0 := PyVal.int 5, level_1 := PyVal.str (codes ("x")),
    level_2 := PyVal.str (codes ("x")), level_3 := PyVal.str (codes ("x")),
    level_4 := PyVal.str (codes ("x")), level_5 := PyVal.str (codes ("x")),
    level_6 := PyVal.str (codes ("x")), level_7 := PyVal.str (codes ("x")),
    level_8 := PyVal.str (codes ("x")), level_9 := PyVal.str (codes ("x")),
    level_10 := PyVal.str (codes ("x")),
    region_name := PyVal.nan, count := PyVal.int 1 }

/-- A row matching the label `thalamus` in two distinct hierarchy columns
at once, with count 7. -/
def doubleRow : RegionCountRow :=
  { blankRow with
    level_1 := PyVal.str (codes ("thalamus"))
    level_2 := PyVal.str (codes ("thalamus"))
    count := PyVal.int 7 }

/-- A row matching the label `a` in three distinct hierarchy columns. -/
def tripleRowA : RegionCountRow :=
  { blankRow with
    level_1 := PyVal.str (codes ("a"))
    level_2 := PyVal.str (codes ("a"))
    level_3 := PyVal.str (codes ("a"))
    count := PyVal.int 3 }

/-- A row matching the label `a` in exactly one hierarchy column, with the
same count as `tripleRowA`. -/
def singleRowA : RegionCountRow :=
  { blankRow with
    level_4 := PyVal.str (codes ("a"))
    count := PyVal.int 3 }

/-- A file system on which the path `g.csv` holds a summary table whose one
name is `Global` and every other path holds one whose name is `Local`. -/
def fsGlobal : String → List PyVal :=
  fun q => if q = ("g.csv") then [PyVal.str (codes ("Global"))]
           else [PyVal.str (codes ("Local"))]

/-- A file system on which every path holds a summary table whose one name
is `Local`.  It agrees with `fsGlobal` everywhere except at `g.csv`. -/
def fsLocal : String → List PyVal :=
  fun _ => [PyVal.str (codes ("Local"))]

/-- A summary-table `name` column holding one string entry and one numeric
entry (as pandas produces for a numeric-looking cell). -/
def badNames : List PyVal := [PyVal.str (codes ("Thalamus")), PyVal.int 42]

/-- A file system on which every path holds the `badNames` column. -/
def fsBad : String → List PyVal := fun _ => badNames


theorem lowerCode_lowerCode (n : Nat) : lowerCode (lowerCode n) = lowerCode n := by
  simp only [lowerCode]
  split_ifs <;> omega

theorem lowerCode_upperCode (n : Nat) : lowerCode (upperCode n) = lowerCode n := by
  simp only [lowerCode, upperCode]
  split_ifs <;> omega

theorem pyLower_pyLower (s : PyStr) : pyLower (pyLower s) = pyLower s := by
  simp only [pyLower, List.map_map, Function.comp_def, lowerCode_lowerCode]

theorem pyLower_pyUpper (s : PyStr) : pyLower (pyUpper s) = pyLower s := by
  simp only [pyLower, pyUpper, List.map_map, Function.comp_def, lowerCode_upperCode]

/-- Claim C2: for every label and every region-count row, `check_columns`
returns true iff the lowercased label is exactly equal, as a whole string,
to one of the eleven lowercased hierarchy-field values `level_0..level_10`;
in particular the label `cortex` does not match a row whose only relevant
field is `cerebral cortex`. -/
theorem check_columns_exact_match :
    (∀ (keyword : PyStr) (row : RegionCountRow),
      check_columns keyword row = true ↔
        ∃ v ∈ level_fields row, pyLower (py_str v) = pyLower keyword) ∧
    check_columns (codes ("cortex")) cerebralRow = false := by
  constructor
  · intro keyword row
    simp [check_columns, row_labels, List.mem_map]
  · decide

/-- Claim C1: in the end-to-end scenario with summary names `Thalamus` and
`Cortex` and region-count rows `{level_1: Thalamus, count: 10}` and
`{level_2: cortex, level_5: Thalamus, count: 4}`, the pipeline outputs
count 14 for `Thalamus` and 4 for `Cortex`. -/
theorem end_to_end_thalamus_cortex :
    run_pipeline
      [PyVal.str (codes ("Thalamus")), PyVal.str (codes ("Cortex"))]
      [thalamusRow, cortexRow] =
    some [(PyVal.str (codes ("Thalamus")), 14), (PyVal.str (codes ("Cortex")), 4)] := by
  decide

/-- Claim C4: matching is case-insensitive — `check_columns` is unchanged
when the label is uppercased, and unchanged when any one of the eleven
hierarchy fields is replaced by its lowercased form. -/
theorem check_columns_case_insensitive :
    (∀ (label : PyStr) (row : RegionCountRow),
      check_columns label row = check_columns (pyUpper label) row) ∧
    (∀ (label : PyStr) (row : RegionCountRow) (i : Fin 11) (v : PyStr),
      check_columns label (setLevel row i (PyVal.str v)) =
        check_columns label (setLevel row i (PyVal.str (pyLower v)))) := by
  constructor
  · intro label row
    simp [check_columns, pyLower_pyUpper]
  · intro label row i v
    fin_cases i <;>
      simp [check_columns, row_labels, level_fields, setLevel, py_str,
        pyLower_pyLower]

theorem level_fields_fillnaRow (r : RegionCountRow) :
    level_fields (fillnaRow r) = (level_fields r).map fillnaVal := rfl

theorem fillnaVal_ne_nan {v : PyVal} (h : v ≠ PyVal.nan) : fillnaVal v = v := by
  cases v <;> simp [fillnaVal] at h ⊢

/-- Claim C3, counterexample: a non-string, non-missing level value does
NOT participate in matching as the literal string 0 — `rowFive` carries the
number 5 in `level_0`, after `fillna(0)` the label `0` fails to match it
while the label `5` matches it. -/
theorem nonstring_level_not_sentinel :
    check_columns (codes ("0")) (fillnaRow rowFive) = false ∧
    check_columns (codes ("5")) (fillnaRow rowFive) = true := by
  decide

/-- Claim C3, amended: missing (NaN) hierarchy values are replaced by the
sentinel 0 before matching, so a row with a genuinely missing hierarchy
field matches a canonical label whose lowercased name is the literal
string 0; a non-missing level value (string or not) participates in
matching as the lowercasing of its own `str(...)` rendering, not as the
string 0. -/
theorem nan_level_sentinel :
    (∀ (row : RegionCountRow) (label : PyStr),
      pyLower label = codes ("0") → PyVal.nan ∈ level_fields row →
      check_columns label (fillnaRow row) = true) ∧
    (∀ (row : RegionCountRow) (label : PyStr) (v : PyVal),
      v ∈ level_fields row → v ≠ PyVal.nan →
      pyLower (py_str v) = pyLower label →
      check_columns label (fillnaRow row) = true) := by
  constructor
  · intro row label hlab hmem
    have : codes ("0") ∈ row_labels (fillnaRow row) := by
      simp only [row_labels, level_fields_fillnaRow, List.map_map]
      exact List.mem_map.mpr ⟨PyVal.nan, hmem, by decide⟩
    simp [check_columns, hlab, this]
  · intro row label v hmem hne hlow
    have : pyLower label ∈ row_labels (fillnaRow row) := by
      simp only [row_labels, level_fields_fillnaRow, List.map_map]
      exact List.mem_map.mpr ⟨v, hmem, by rw [Function.comp_apply, fillnaVal_ne_nan hne, hlow]⟩
    simp [check_columns, this]

theorem nan_level_sentinel_witness :
    check_columns (codes ("0")) (fillnaRow blankRow) = true :=
  nan_level_sentinel.1 blankRow (codes ("0")) (by decide) (by decide)

theorem count_fillnaRow (r : RegionCountRow) :
    (fillnaRow r).count = fillnaVal r.count := rfl

theorem py_int_fillnaVal {v : PyVal}
    (h : v = PyVal.nan ∨ ∃ n, v = PyVal.int n) :
    py_int (fillnaVal v) = some (coerced_count v) := by
  rcases h with h | ⟨n, h⟩ <;> subst h <;> rfl

/-- Claim C6: a region-count row whose count is missing contributes exactly
0 to every label it matches, and the aggregated count of a label is the
integer sum of the missing-coerced-to-0 counts over all of its matching
rows (counts being numeric or missing). -/
theorem aggregation_additivity :
    ∀ (rows : List RegionCountRow) (label : PyStr),
      (∀ r ∈ rows, r.count = PyVal.nan ∨ ∃ n, r.count = PyVal.int n) →
      structure_count label (rows.map fillnaRow) =
        some (((rows.filter (fun r => check_columns label (fillnaRow r))).map
          (fun r => coerced_count r.count)).sum) := by
  intro rows label h
  induction rows with
  | nil => simp [structure_count]
  | cons r rs ih =>
    have hr := h r (List.mem_cons_self r rs)
    have ih2 := ih (fun x hx => h x (List.mem_cons_of_mem r hx))
    by_cases hc : check_columns label (fillnaRow r) = true
    · simp only [List.map_cons, structure_count, hc, if_true, count_fillnaRow,
        py_int_fillnaVal hr, ih2, List.filter_cons, List.map_cons, List.sum_cons]
    · have hc' : check_columns label (fillnaRow r) = false :=
        Bool.eq_false_iff.mpr hc
      simp only [List.map_cons, structure_count, hc', Bool.false_eq_true,
        if_false, ih2, List.filter_cons]

/-- Claim C10: a row is counted at most once per label — the contribution
of the first row to `structure_count` depends only on the boolean match
result and the count, not on how many hierarchy columns equal the label;
and concretely a row matching `thalamus` in two distinct columns with
count 7 yields an aggregate of 7, not 14. -/
theorem row_counted_once :
    (∀ (label : PyStr) (r rq : RegionCountRow) (rs : List RegionCountRow),
      r.count = rq.count → check_columns label r = check_columns label rq →
      structure_count label (r :: rs) = structure_count label (rq :: rs)) ∧
    structure_count (codes ("thalamus")) [doubleRow] = some 7 := by
  constructor
  · intro label r rq rs hcount hmatch
    simp only [structure_count, hcount, hmatch]
  · decide

theorem row_counted_once_witness :
    structure_count (codes ("a")) [tripleRowA] =
      structure_count (codes ("a")) [singleRowA] :=
  row_counted_once.1 (codes ("a")) tripleRowA singleRowA [] (by decide) (by decide)

theorem lower_names_length :
    ∀ {ns : List PyVal} {ms : List PyStr},
      lower_names ns = some ms → ms.length = ns.length := by
  intro ns
  induction ns with
  | nil => intro ms h; simp [lower_names] at h; simp [h.symm]
  | cons v vs ih =>
    intro ms h
    cases hv : lowerName v <;> cases hvs : lower_names vs <;>
      simp [lower_names, hv, hvs] at h
    subst h
    simp [ih hvs]

theorem counts_for_length :
    ∀ {rows : List RegionCountRow} {ns : List PyStr} {cs : List Int},
      counts_for rows ns = some cs → cs.length = ns.length := by
  intro rows ns
  induction ns with
  | nil => intro cs h; simp [counts_for] at h; simp [h.symm]
  | cons n nsr ih =>
    intro cs h
    cases hn : dict_lookup rows n <;> cases hns : counts_for rows nsr <;>
      simp [counts_for, hn, hns] at h
    subst h
    simp [ih hns]

theorem zip_counts_spec :
    ∀ (ns : List PyVal) (names : List PyStr) (counts : List Int)
      (rows : List RegionCountRow),
      lower_names ns = some names → counts_for rows names = some counts →
      ∀ pr ∈ ns.zip counts, ∃ s, pr.1 = PyVal.str s ∧
        dict_lookup rows (pyLower s) = some pr.2 := by
  intro ns
  induction ns with
  | nil => intro names counts rows h1 h2 pr hpr; simp at hpr
  | cons v vs ih =>
    intro names counts rows h1 h2 pr hpr
    cases hv : lowerName v <;> cases hvs : lower_names vs <;>
      simp [lower_names, hv, hvs] at h1
    subst h1
    rename_i s ss
    cases hd : dict_lookup rows s <;> cases hcs : counts_for rows ss <;>
      simp [counts_for, hd, hcs] at h2
    subst h2
    rename_i c cs
    rcases List.mem_cons.mp hpr with h | h
    · subst h
      cases v with
      | str s0 =>
        refine ⟨s0, rfl, ?_⟩
        have : pyLower s0 = s := by simpa [lowerName] using hv
        rw [this]
        exact hd
      | int n => simp [lowerName] at hv
      | nan => simp [lowerName] at hv
    · exact ih ss cs rows hvs hcs pr h

/-- Claim C5: the writer emits exactly one output record per input summary
record, in input order with duplicates kept — the output first components
are the input name cells — and each output count is the dict lookup of the
lowercased name (the aggregated value when some row matched it, 0
otherwise), so records with equal name cells receive equal counts. -/
theorem writer_one_row_per_record :
    ∀ (summary_names : List PyVal) (region_rows : List RegionCountRow)
      (out : List (PyVal × Int)),
      run_pipeline summary_names region_rows = some out →
      out.map Prod.fst = summary_names ∧
      out.length = summary_names.length ∧
      (∀ pr ∈ out, ∃ s, pr.1 = PyVal.str s ∧
        dict_lookup (region_rows.map fillnaRow) (pyLower s) = some pr.2) ∧
      (∀ pr ∈ out, ∀ qr ∈ out, pr.1 = qr.1 → pr.2 = qr.2) := by
  intro ns rows out h
  simp only [run_pipeline, Option.bind_eq_some, Option.pure_def,
    Option.some.injEq, bind, Option.bind_eq_some] at h
  obtain ⟨names, hnames, lv, hlv, counts, hcounts, hout⟩ := h
  subst hout
  have hlen1 : names.length = ns.length := lower_names_length hnames
  have hlen2 : counts.length = names.length := counts_for_length hcounts
  have hle : ns.length ≤ counts.length := by omega
  have hspec := zip_counts_spec ns names counts (rows.map fillnaRow) hnames hcounts
  refine ⟨List.map_fst_zip ns counts hle, ?_, hspec, ?_⟩
  · simp [List.length_zip]; omega
  · intro pr hpr qr hqr heq
    obtain ⟨s, hs1, hs2⟩ := hspec pr hpr
    obtain ⟨t, ht1, ht2⟩ := hspec qr hqr
    have hst : s = t := by
      have := hs1.symm.trans (heq.trans ht1)
      exact PyVal.str.inj this
    subst hst
    exact Option.some.inj (hs2.symm.trans ht2)

/-- Claim C5, witness at the end-to-end tables. -/
theorem writer_one_row_per_record_witness :
    ([(PyVal.str (codes ("Thalamus")), (14 : Int)),
      (PyVal.str (codes ("Cortex")), (4 : Int))].map Prod.fst) =
      [PyVal.str (codes ("Thalamus")), PyVal.str (codes ("Cortex"))] :=
  (writer_one_row_per_record
    [PyVal.str (codes ("Thalamus")), PyVal.str (codes ("Cortex"))]
    [thalamusRow, cortexRow]
    [(PyVal.str (codes ("Thalamus")), 14), (PyVal.str (codes ("Cortex")), 4)]
    (by decide)).1

/-- Claim C6, witness at the end-to-end tables. -/
theorem aggregation_additivity_witness :
    structure_count (codes ("thalamus")) ([thalamusRow, cortexRow].map fillnaRow) =
      some 14 :=
  (aggregation_additivity [thalamusRow, cortexRow] (codes ("thalamus"))
    (by
      intro r hr
      rcases List.mem_cons.mp hr with h | h
      · exact Or.inr ⟨10, by subst h; rfl⟩
      · rcases List.mem_cons.mp h with h2 | h2
        · exact Or.inr ⟨4, by subst h2; rfl⟩
        · simp at h2)).trans (by decide)

/-- Claim C7: `load_summary_structures` does NOT depend only on the file at
its `filepath` argument.  The two file systems agree at `p.csv`, yet the
results of loading `p.csv` under them differ (the body reads the global
`summary_structures_filepath`, here `g.csv`); the result is in fact
unchanged when the `filepath` argument is replaced by a different path. -/
theorem load_reads_global_path :
    fsGlobal ("p.csv") = fsLocal ("p.csv") ∧
    load_summary_structures fsGlobal ("g.csv") ("p.csv") ≠
      load_summary_structures fsLocal ("g.csv") ("p.csv") ∧
    load_summary_structures fsGlobal ("g.csv") ("p.csv") =
      load_summary_structures fsGlobal ("g.csv") ("other.csv") := by
  refine ⟨by decide, ?_, by decide⟩
  decide

/-- Claim C8, counterexample: invoked with one positional argument the
program does not terminate with a non-zero exit status — `sys.exit()` with
no argument is exit status 0. -/
theorem usage_exit_is_zero :
    ¬ ∃ c, dispatch [("count_labels.py"), ("in.csv")] = MainStart.usage c ∧ c ≠ 0 := by
  rintro ⟨c, h1, h2⟩
  have h0 : dispatch [("count_labels.py"), ("in.csv")] = MainStart.usage 0 := by decide
  rw [h0] at h1
  exact h2 (MainStart.usage.inj h1).symm

/-- Claim C8, amended: with fewer than two positional arguments the
program prints the usage message and terminates immediately with exit
status 0 (a clean, success-equivalent termination), taking the `usage`
branch and hence producing no output file and no unhandled fault. -/
theorem usage_exit_amended :
    ∀ (argv : List String), argv.length < 3 → dispatch argv = MainStart.usage 0 := by
  intro argv h
  simp [dispatch, h]

theorem usage_exit_amended_witness :
    dispatch [("count_labels.py")] = MainStart.usage 0 :=
  usage_exit_amended [("count_labels.py")] (by decide)

/-- Claim C9, counterexample: loading a summary table whose name column
holds the non-string value 42 does not succeed — the lowercasing
comprehension inside `load_summary_structures` raises. -/
theorem load_nonstring_name_fails :
    load_summary_structures fsBad ("s.csv") ("s.csv") = none := by
  decide

theorem lower_names_none_of_nonstring :
    ∀ (l : List PyVal), (∃ v ∈ l, ∀ s, v ≠ PyVal.str s) →
      lower_names l = none := by
  intro l
  induction l with
  | nil => rintro ⟨v, hv, _⟩; simp at hv
  | cons w ws ih =>
    rintro ⟨v, hv, hns⟩
    rcases List.mem_cons.mp hv with h | h
    · subst h
      cases v with
      | str s => exact absurd rfl (hns s)
      | int n => simp [lower_names, lowerName]
      | nan => simp [lower_names, lowerName]
    · have : lower_names ws = none := ih ⟨v, h, hns⟩
      cases hw : lowerName w <;> simp [lower_names, hw, this]

/-- Claim C9, amended: the loader runs no explicit validation, but its
lowercasing of the name column fails on any non-string name value, so such
a table fails to load and the values do not propagate into later stages. -/
theorem load_nonstring_name_fails_amended :
    ∀ (fs : String → List PyVal) (gpath p : String),
      (∃ v ∈ fs gpath, ∀ s, v ≠ PyVal.str s) →
      load_summary_structures fs gpath p = none := by
  intro fs gpath p h
  have h0 := lower_names_none_of_nonstring (fs gpath) h
  unfold load_summary_structures
  simp [h0]

theorem load_nonstring_name_fails_amended_witness :
    load_summary_structures fsBad ("t.csv") ("t.csv") = none :=
  load_nonstring_name_fails_amended fsBad ("t.csv") ("t.csv")
    ⟨PyVal.int 42, by decide, fun s h => PyVal.noConfusion h⟩
